import Mathlib

/-!
# Verification of the fluxcal energy-balance and fasting model

Shallow embedding of the computational core of the repository:
the metabolic-rate calculator, the energy-balance engine (client display,
client optimistic update, server catch-up update), the buffer manager,
the fasting stage classifier and the fasting summary aggregator.

Modelling conventions:
* JavaScript numbers are modelled as `ℚ`.
* Timestamps (`Date.getTime()`) are milliseconds since the epoch, as `ℚ`.
* `Math.round` is `⌊x + 1/2⌋` (JS rounds half toward positive infinity).
* `Date.setHours(0,0,0,0)` (local midnight) is modelled as flooring the
  millisecond timestamp to a multiple of `86400000`.
* The JS truthiness of optional numeric fields (`x || d`) treats both a
  missing value and `0` as falsy.
* Calendar-date string keys (`YYYY-MM-DD`) are compared lexicographically
  by the source, which on well-formed keys coincides with chronological
  order; they are modelled as integer day keys with that order.
-/

namespace Fluxcal

/-- `Math.round`: JavaScript rounds half toward positive infinity. -/
def jsRound (q : ℚ) : ℤ := ⌊q + 1/2⌋

/-- JS `x || d` for an optional numeric field: `null`/`undefined` and `0`
are falsy and fall back to `d`. -/
def jsOr (o : Option ℚ) (d : ℚ) : ℚ :=
  match o with
  | some v => if v = 0 then d else v
  | none => d

/-- `Date.setHours(0,0,0,0)`: local midnight of a millisecond timestamp,
modelled as flooring to a whole number of days. -/
def midnightOf (t : ℚ) : ℚ := 86400000 * (⌊t / 86400000⌋ : ℤ)

/-- The calendar day of a millisecond timestamp, as an integer day index. -/
def dayIndexOf (t : ℚ) : ℤ := ⌊t / 86400000⌋

/-- `calculateBMR` (Home.tsx 111-119): Mifflin–St Jeor.
`let bmr = 10*w + 6.25*h - 5*a; if male bmr += 5 else bmr -= 161; Math.round(bmr)`. -/
def calculateBMR (weight height age : ℚ) (gender : String) : ℤ :=
  let bmr := 10 * weight + 6.25 * height - 5 * age
  let bmr := if gender = "male" then bmr + 5 else bmr - 161
  jsRound bmr

/-- `getActivityMultiplier` (Home.tsx 121-130): switch over the activity
level with default `1.2`. -/
def getActivityMultiplier (level : String) : ℚ :=
  if level = "sedentary" then 1.2
  else if level = "light" then 1.375
  else if level = "moderate" then 1.55
  else if level = "active" then 1.725
  else if level = "very_active" then 1.9
  else 1.2

/-- TDEE computation (Home.tsx 969, 1320, 1925):
`Math.round(bmr * getActivityMultiplier(level))`. -/
def computeTdee (bmr : ℤ) (level : String) : ℤ :=
  jsRound ((bmr : ℚ) * getActivityMultiplier level)

/-- `getFastingStage` (Home.tsx 1201-1209), together with the hours
computation (Home.tsx 1198-1199): `secondsSinceLastMeal = lastMealTime ?
(now - lastMealTime)/1000 : 0`, `hours = seconds/3600`; no meal recorded
yields the awaiting state, otherwise a chain of strict upper bounds at
4, 8, 12 and 16 hours. -/
def getFastingStage (now : ℚ) (lastMealTime : Option ℚ) : String :=
  let hoursSinceLastMeal : ℚ :=
    match lastMealTime with
    | some t => ((now - t) / 1000) / 3600
    | none => 0
  match lastMealTime with
  | none => "Awaiting Entry"
  | some _ =>
    if hoursSinceLastMeal < 4 then "Fed"
    else if hoursSinceLastMeal < 8 then "Post-Absorptive"
    else if hoursSinceLastMeal < 12 then "Fat Burning"
    else if hoursSinceLastMeal < 16 then "Deep Ketosis"
    else "Autophagy"

/-- The client-displayed energy balance (Home.tsx 1104, 1158-1164, 1271-1273):
`goalBurnRatePerSecond = cap/86400` with `cap = dailyGoalCalories || tdee`,
`secondsSinceAnchor = max(0,(now - anchorTs)/1000)`,
`cumulativeBalance = anchorValue + secondsSinceAnchor * rate`,
`shownBalance = min(cumulativeBalance, cap)`. -/
def shownBalance (value ts cap now : ℚ) : ℚ :=
  min (value + max 0 ((now - ts) / 1000) * (cap / 86400)) cap

/-- `DatabaseStorage.updateEnergyReserve` (storage.ts 112-146): read the
persisted anchor, add elapsed burn since the persisted anchor timestamp
(`now` used as fallback when the timestamp is missing), subtract the food
delta, clamp at `dailyGoalCalories || tdee`, and re-anchor at `now`.
Returns the persisted pair (new `cumulativeNetCalories`,
new `lastBalanceUpdateDate`). -/
def updateEnergyReserve (cumulativeNetCalories lastBalanceUpdateDate dailyGoalCalories : Option ℚ)
    (deltaCalories tdee now : ℚ) : ℚ × ℚ :=
  let currentBalance := cumulativeNetCalories.getD 0
  let lastUpdate := lastBalanceUpdateDate.getD now
  let secondsSinceLastUpdate := max 0 ((now - lastUpdate) / 1000)
  let burnRatePerSecond := tdee / 86400
  let burnSinceLastUpdate := secondsSinceLastUpdate * burnRatePerSecond
  let newBalance := currentBalance + burnSinceLastUpdate - deltaCalories
  let maxBalance := jsOr dailyGoalCalories tdee
  (min newBalance maxBalance, now)

/-- The client optimistic food-delta update (Home.tsx 908-927): the anchor
value is decreased by the delta and the anchor timestamp is kept. -/
def clientApplyFoodDelta (value ts delta : ℚ) : ℚ × ℚ :=
  (value - delta, ts)

/-- Modelled from the spec: `applyFoodDelta(deltaCalories, now)` re-anchors
via `value' = query(now) - deltaCalories`, `timestamp' = now`, where
`query` is the capped displayed balance. Spec-side definition used to
compare the client and server implementations against the specified
re-anchoring rule. -/
def specApplyFoodDelta (value ts cap now delta : ℚ) : ℚ × ℚ :=
  (shownBalance value ts cap now - delta, now)

/-- Result of `POST /api/user/calculate-buffer` (storage.ts routes 538-596):
response flags plus the user's buffer date after the call. -/
structure BufferResult where
  bufferSet : Bool
  bufferAmount : Option ℤ
  forDate : Option ℤ
  reasonExceededTdee : Option Bool
  bufferCleared : Bool
  bufferForDateAfter : Option ℤ
  deriving DecidableEq, Repr

/-- `POST /api/user/calculate-buffer` (storage.ts routes 552-591) with the
goal already resolved as `goalOrTdee = dailyGoalCalories || tdee` and the
next-day date key precomputed: if `consumed < goal` and `consumed < tdee`,
set a buffer of `Math.round(goal - consumed)` for the next day; otherwise
report the reason (`exceeded_tdee` iff `consumed >= tdee`) and clear an
existing buffer exactly when its date key is `<=` the next-day key.
`reasonExceededTdee = some true` encodes reason `exceeded_tdee`,
`some false` encodes `met_or_exceeded_goal`, `none` means no reason field. -/
def calculateBufferRoute (consumed goalOrTdee tdee : ℚ) (nextDate : ℤ)
    (existingBufferForDate : Option ℤ) : BufferResult :=
  if consumed < goalOrTdee ∧ consumed < tdee then
    { bufferSet := true
      bufferAmount := some (jsRound (goalOrTdee - consumed))
      forDate := some nextDate
      reasonExceededTdee := none
      bufferCleared := false
      bufferForDateAfter := some nextDate }
  else
    let exceeded := tdee ≤ consumed
    match existingBufferForDate with
    | some d =>
      if d ≤ nextDate then
        { bufferSet := false, bufferAmount := none, forDate := none
          reasonExceededTdee := some exceeded, bufferCleared := true
          bufferForDateAfter := none }
      else
        { bufferSet := false, bufferAmount := none, forDate := none
          reasonExceededTdee := some exceeded, bufferCleared := false
          bufferForDateAfter := some d }
    | none =>
      { bufferSet := false, bufferAmount := none, forDate := none
        reasonExceededTdee := some exceeded, bufferCleared := false
        bufferForDateAfter := none }

/-- Goal fields persisted by `PATCH /api/user/goals`. -/
structure GoalResult where
  goalWeight : ℚ
  goalDays : ℚ
  dailyGoalCalories : ℚ
  dailyDeficit : ℚ
  deriving DecidableEq, Repr

/-- `PATCH /api/user/goals` (storage.ts routes 467-501): reject missing
(falsy) fields, `targetWeight >= currentWeight`, or `targetDays <= 0`;
otherwise `dailyDeficit = Math.round((currentWeight-targetWeight)*7700 /
targetDays)` capped at 1000 and `dailyGoalCalories = max(bmr - safeDeficit,
1200)`. -/
def patchUserGoals (targetWeight targetDays currentWeight bmr : ℚ) :
    Except String GoalResult :=
  if targetWeight = 0 ∨ targetDays = 0 ∨ currentWeight = 0 ∨ bmr = 0 then
    .error "Missing required fields"
  else
    let weightDiff := currentWeight - targetWeight
    if weightDiff ≤ 0 then
      .error "Target weight must be less than current weight"
    else if targetDays ≤ 0 then
      .error "Target days must be positive"
    else
      let totalCaloriesToBurn := weightDiff * 7700
      let dailyDeficit := jsRound (totalCaloriesToBurn / targetDays)
      let safeDeficit := min dailyDeficit 1000
      let dailyGoalCalories := max (bmr - (safeDeficit : ℚ)) 1200
      .ok { goalWeight := targetWeight, goalDays := targetDays
            dailyGoalCalories := dailyGoalCalories
            dailyDeficit := (safeDeficit : ℚ) }

/-- The five per-day fasting stage buckets, in seconds (as accumulated by
`calculateFastingDurationsForDay`, before rounding). -/
structure FastingBuckets where
  fed : ℚ
  postAbsorptive : ℚ
  fatBurning : ℚ
  deepKetosis : ℚ
  autophagy : ℚ
  deriving DecidableEq, Repr

/-- The zero bucket record. -/
def FastingBuckets.zero : FastingBuckets := ⟨0, 0, 0, 0, 0⟩

/-- Componentwise addition of bucket records. -/
def FastingBuckets.add (a b : FastingBuckets) : FastingBuckets :=
  ⟨a.fed + b.fed, a.postAbsorptive + b.postAbsorptive,
   a.fatBurning + b.fatBurning, a.deepKetosis + b.deepKetosis,
   a.autophagy + b.autophagy⟩

/-- Total seconds across the five buckets. -/
def FastingBuckets.total (a : FastingBuckets) : ℚ :=
  a.fed + a.postAbsorptive + a.fatBurning + a.deepKetosis + a.autophagy

/-- All five buckets are nonnegative. -/
def FastingBuckets.Nonneg (a : FastingBuckets) : Prop :=
  0 ≤ a.fed ∧ 0 ≤ a.postAbsorptive ∧ 0 ≤ a.fatBurning ∧
  0 ≤ a.deepKetosis ∧ 0 ≤ a.autophagy

/-- Overlap of the elapsed-hours interval with one bounded stage interval:
`max(0, min(hoursEnd, stageEnd) - max(hoursStart, stageStart))` hours,
converted to seconds (storage.ts routes 804-817). Contributions are only
added when positive, which the outer `max 0` captures. -/
def stageOverlap (hs he a b : ℚ) : ℚ :=
  max 0 (min he b - max hs a) * 3600

/-- Overlap with the final unbounded stage `[a, ∞)`:
`min(hoursEnd, Infinity) = hoursEnd`. -/
def stageOverlapTop (hs he a : ℚ) : ℚ :=
  max 0 (he - max hs a) * 3600

/-- `allocateFastingTimeWithOffset` (storage.ts routes 784-818): given the
last meal (or none), allocate the window `[windowStart, windowEnd)` into
the five stage buckets by hours since the last meal; an empty or inverted
window contributes nothing; with no last meal the walker is assumed deep
into fasting (`hoursStart = 24`). Timestamps are in milliseconds, so hours
are `ms / (1000*3600) = ms / 3600000`. -/
def allocateFastingTimeWithOffset (lastMeal : Option ℚ) (windowStart windowEnd : ℚ) :
    FastingBuckets :=
  if windowEnd ≤ windowStart then FastingBuckets.zero
  else
    let hs : ℚ :=
      match lastMeal with
      | some lm => (windowStart - lm) / 3600000
      | none => 24
    let he : ℚ :=
      match lastMeal with
      | some lm => (windowEnd - lm) / 3600000
      | none => 24 + (windowEnd - windowStart) / 3600000
    ⟨stageOverlap hs he 0 4, stageOverlap hs he 4 8, stageOverlap hs he 8 12,
     stageOverlap hs he 12 16, stageOverlapTop hs he 16⟩

/-- The meal walk inside `calculateFastingDurationsForDay` (storage.ts
routes 764-779): for each meal in order allocate `[clock, meal)` against
the current last-meal anchor, then reset the anchor and the clock to the
meal; finally allocate `[clock, dayEnd)`. -/
def fastingWalk (dayEnd : ℚ) : Option ℚ → ℚ → List ℚ → FastingBuckets → FastingBuckets
  | lastMealTime, currentTime, [], acc =>
    acc.add (allocateFastingTimeWithOffset lastMealTime currentTime dayEnd)
  | lastMealTime, currentTime, meal :: rest, acc =>
    fastingWalk dayEnd (some meal) meal rest
      (acc.add (allocateFastingTimeWithOffset lastMealTime currentTime meal))

/-- `calculateFastingDurationsForDay` (storage.ts routes 752-781): sort the
day's meals ascending and walk the day window. -/
def calculateFastingDurationsForDay (lastMealBeforeDayStart : Option ℚ)
    (dayMeals : List ℚ) (dayStart dayEnd : ℚ) : FastingBuckets :=
  fastingWalk dayEnd lastMealBeforeDayStart dayStart
    (dayMeals.insertionSort (· ≤ ·)) FastingBuckets.zero

/-- A persisted per-day fasting summary row (integer seconds, after
`Math.round`). -/
structure SummaryRow where
  fedSeconds : ℤ
  postAbsorptiveSeconds : ℤ
  fatBurningSeconds : ℤ
  deepKetosisSeconds : ℤ
  autophagySeconds : ℤ
  deriving DecidableEq, Repr

/-- One iteration of the per-day loop of `POST /api/fasting/recalculate`
(storage.ts routes 901-972), for a user whose
`fastingTrackingStartDate` is present (`originalTrackingTimestamp`), with
`trackingStartDate` its midnight: select the day's meals and the last meal
strictly before the day from the ascending-sorted food history, resolve the
effective anchors (fall back to the onboarding timestamp, and on the
tracking-start day with no anchor start at the first meal), compute the
stage durations, and round them into the persisted row — forcing
`autophagySeconds = 0` on the tracking-start day. -/
def recalcDaySummary (originalTrackingTimestamp : ℚ) (sortedFoodItems : List ℚ)
    (dayStart dayEnd : ℚ) : SummaryRow :=
  let trackingStartDate := midnightOf originalTrackingTimestamp
  let dayMeals := sortedFoodItems.filter (fun t => dayStart ≤ t ∧ t ≤ dayEnd)
  let lastMealBefore := (sortedFoodItems.filter (fun t => t < dayStart)).getLast?
  let effective : Option ℚ × ℚ :=
    match lastMealBefore with
    | some lm => (some lm, dayStart)
    | none =>
      if originalTrackingTimestamp < dayStart then
        (some originalTrackingTimestamp, dayStart)
      else if dayStart ≤ originalTrackingTimestamp ∧ originalTrackingTimestamp ≤ dayEnd then
        (some originalTrackingTimestamp, originalTrackingTimestamp)
      else
        (none, dayStart)
  let effectiveLastMealBefore := effective.1
  let effectiveDayStart :=
    if dayStart = trackingStartDate ∧ effectiveLastMealBefore = none ∧ dayMeals ≠ [] then
      dayMeals.headD effective.2
    else effective.2
  let durations := calculateFastingDurationsForDay effectiveLastMealBefore
    dayMeals effectiveDayStart dayEnd
  let isTrackingStartDate := dayStart = trackingStartDate
  { fedSeconds := jsRound durations.fed
    postAbsorptiveSeconds := jsRound durations.postAbsorptive
    fatBurningSeconds := jsRound durations.fatBurning
    deepKetosisSeconds := jsRound durations.deepKetosis
    autophagySeconds := if isTrackingStartDate then 0 else jsRound durations.autophagy }

/-- Outcome of `POST /api/food` (storage.ts routes 599-649): either the
request is rejected with a validation error (no entry inserted) or the
entry with the given timestamp is inserted. -/
structure AddFoodOutcome where
  inserted : Option ℚ
  validationError : Bool
  deriving DecidableEq, Repr

/-- The tracking-start-date validation of `POST /api/food` (storage.ts
routes 621-635): when the user has a `fastingTrackingStartDate`, an entry
whose midnight-normalised timestamp is before the midnight-normalised
tracking start is rejected with a 400 validation error before any insert;
otherwise the entry is inserted. -/
def postFood (fastingTrackingStartDate : Option ℚ) (timestamp : ℚ) : AddFoodOutcome :=
  match fastingTrackingStartDate with
  | some startDate =>
    if midnightOf timestamp < midnightOf startDate then
      { inserted := none, validationError := true }
    else
      { inserted := some timestamp, validationError := false }
  | none => { inserted := some timestamp, validationError := false }

/-! ## Theorems -/

/-- C1: For every energy-balance state with `capBasis > 0`, the displayed
balance `min(value + max(0, now - anchorTs) * (capBasis/86400), capBasis)`
is non-decreasing in `now` between food events, and never exceeds
`capBasis`. -/
theorem shownBalance_monotone_and_capped (value ts cap : ℚ) (hcap : 0 < cap) :
    (∀ n1 n2 : ℚ, n1 ≤ n2 → shownBalance value ts cap n1 ≤ shownBalance value ts cap n2) ∧
    (∀ now : ℚ, shownBalance value ts cap now ≤ cap) := by
  constructor
  · intro n1 n2 h
    unfold shownBalance
    have hr : (0 : ℚ) ≤ cap / 86400 := by positivity
    have hmx : max 0 ((n1 - ts) / 1000) ≤ max 0 ((n2 - ts) / 1000) :=
      max_le_max le_rfl (by linarith)
    exact min_le_min (by nlinarith) le_rfl
  · intro now
    exact min_le_right _ _

/-- Witness for C1 at a concrete state and pair of query times. -/
theorem shownBalance_monotone_and_capped_witness :
    (0 : ℚ) < 2000 ∧
    shownBalance 500 0 2000 3600000 ≤ shownBalance 500 0 2000 7200000 ∧
    shownBalance 500 0 2000 3600000 ≤ 2000 := by
  refine ⟨by norm_num, ?_, ?_⟩
  · exact (shownBalance_monotone_and_capped 500 0 2000 (by norm_num)).1 3600000 7200000
      (by norm_num)
  · exact (shownBalance_monotone_and_capped 500 0 2000 (by norm_num)).2 3600000

/-- C5 counterexample: the Mifflin–St Jeor computation at
`(75 kg, 175 cm, 30 y, male)` gives `round(1698.75) = 1699`, not the
claimed `1680`. -/
theorem calculateBMR_example_fails :
    calculateBMR 75 175 30 "male" = 1699 ∧ (1699 : ℤ) ≠ 1680 := by
  constructor
  · norm_num [calculateBMR, jsRound]
  · norm_num

/-- C5 amended: `calculateBMR` equals the rounded closed-form Mifflin–St
Jeor formula, the activity multipliers are `1.2 / 1.375 / 1.55 / 1.725 /
1.9` with default `1.2` for an unknown level, TDEE is the rounded product
of BMR with the level's multiplier, and in particular
`calculateBMR 75 175 30 male = 1699` (not 1680) while
`computeTdee 1680 "light" = 2310`. -/
theorem bmr_tdee_formulas :
    (∀ w h a : ℚ, ∀ g : String,
      calculateBMR w h a g =
        jsRound (10 * w + 6.25 * h - 5 * a + (if g = "male" then 5 else -161))) ∧
    (∀ b : ℤ, computeTdee b "sedentary" = jsRound ((b : ℚ) * 1.2)) ∧
    (∀ b : ℤ, computeTdee b "light" = jsRound ((b : ℚ) * 1.375)) ∧
    (∀ b : ℤ, computeTdee b "moderate" = jsRound ((b : ℚ) * 1.55)) ∧
    (∀ b : ℤ, computeTdee b "active" = jsRound ((b : ℚ) * 1.725)) ∧
    (∀ b : ℤ, computeTdee b "very_active" = jsRound ((b : ℚ) * 1.9)) ∧
    (∀ s : String, s ≠ "sedentary" → s ≠ "light" → s ≠ "moderate" →
      s ≠ "active" → s ≠ "very_active" → getActivityMultiplier s = 1.2) ∧
    calculateBMR 75 175 30 "male" = 1699 ∧
    computeTdee 1680 "light" = 2310 := by
  refine ⟨?_, ?_, ?_, ?_, ?_, ?_, ?_, ?_, ?_⟩
  · intro w h a g
    unfold calculateBMR
    split <;> ring_nf
  · intro b; rfl
  · intro b; rfl
  · intro b; rfl
  · intro b; rfl
  · intro b; rfl
  · intro s h1 h2 h3 h4 h5
    simp [getActivityMultiplier, h1, h2, h3, h4, h5]
  · norm_num [calculateBMR, jsRound]
  · have hmul : getActivityMultiplier "light" = 1.375 := rfl
    norm_num [computeTdee, hmul, jsRound]

/-- Witness for C5 amended, instantiating the quantified parts at the
unknown activity level "lightly_active" used by the repository's seeded
test user. -/
theorem bmr_tdee_formulas_witness :
    calculateBMR 80 180 40 "female" =
      jsRound (10 * 80 + 6.25 * 180 - 5 * 40 + (if "female" = "male" then 5 else -161)) ∧
    computeTdee 1500 "light" = jsRound ((1500 : ℚ) * 1.375) ∧
    getActivityMultiplier "lightly_active" = 1.2 := by
  refine ⟨bmr_tdee_formulas.1 80 180 40 "female", bmr_tdee_formulas.2.2.1 1500, ?_⟩
  exact bmr_tdee_formulas.2.2.2.2.2.2.1 "lightly_active" (by decide) (by decide) (by decide)
    (by decide) (by decide)

/-- C8: the fasting-stage classifier returns the awaiting state with no
recorded meal, and classifies `hoursSinceLastMeal` into half-open
intervals `[0,4) / [4,8) / [8,12) / [12,16) / [16,∞)`; in particular 3.99
hours is Fed, exactly 4.0 hours is Post-Absorptive and exactly 16.0 hours
is Autophagy. -/
theorem getFastingStage_classification :
    (∀ now : ℚ, getFastingStage now none = "Awaiting Entry") ∧
    (∀ now t : ℚ,
      (0 ≤ ((now - t) / 1000) / 3600 → ((now - t) / 1000) / 3600 < 4 →
        getFastingStage now (some t) = "Fed") ∧
      (4 ≤ ((now - t) / 1000) / 3600 → ((now - t) / 1000) / 3600 < 8 →
        getFastingStage now (some t) = "Post-Absorptive") ∧
      (8 ≤ ((now - t) / 1000) / 3600 → ((now - t) / 1000) / 3600 < 12 →
        getFastingStage now (some t) = "Fat Burning") ∧
      (12 ≤ ((now - t) / 1000) / 3600 → ((now - t) / 1000) / 3600 < 16 →
        getFastingStage now (some t) = "Deep Ketosis") ∧
      (16 ≤ ((now - t) / 1000) / 3600 →
        getFastingStage now (some t) = "Autophagy")) ∧
    getFastingStage (3.99 * 3600000) (some 0) = "Fed" ∧
    getFastingStage (4 * 3600000) (some 0) = "Post-Absorptive" ∧
    getFastingStage (16 * 3600000) (some 0) = "Autophagy" := by
  refine ⟨fun now => rfl, fun now t => ?_, ?_, ?_, ?_⟩
  · refine ⟨fun h0 h4 => ?_, fun h4 h8 => ?_, fun h8 h12 => ?_, fun h12 h16 => ?_,
      fun h16 => ?_⟩ <;>
    · simp only [getFastingStage]
      split_ifs <;> first | rfl | linarith
  · norm_num [getFastingStage]
  · norm_num [getFastingStage]
  · norm_num [getFastingStage]

/-- Witness for C8, instantiating the quantified stage bounds at 6 hours
since a meal at time 0. -/
theorem getFastingStage_classification_witness :
    getFastingStage 21600000 (some 0) = "Post-Absorptive" := by
  exact (getFastingStage_classification.2.1 21600000 0).2.1 (by norm_num) (by norm_num)

/-- C9: an energy-balance update for an existing user with a missing
persisted anchor timestamp does not fail: the anchor is treated as `now`,
so zero elapsed burn is added; the delta is subtracted, the cap
`dailyGoalCalories || tdee` applied, and the state re-anchored at `now`. -/
theorem updateEnergyReserve_missing_anchor
    (cumulative dailyGoal : Option ℚ) (delta tdee now : ℚ) :
    updateEnergyReserve cumulative none dailyGoal delta tdee now =
      (min (cumulative.getD 0 - delta) (jsOr dailyGoal tdee), now) := by
  simp [updateEnergyReserve]

/-- C10: an add-food request whose timestamp falls on a calendar day
strictly before the calendar day of the user's tracking-start date is
rejected with a validation error and no food entry is inserted. -/
theorem postFood_rejects_before_tracking_start (startDate timestamp : ℚ)
    (h : dayIndexOf timestamp < dayIndexOf startDate) :
    postFood (some startDate) timestamp =
      { inserted := none, validationError := true } := by
  have h86 : (0 : ℚ) < 86400000 := by norm_num
  have key : midnightOf timestamp < midnightOf startDate := by
    unfold midnightOf
    rw [mul_lt_mul_left h86]
    exact_mod_cast h
  simp [postFood, key]

/-- C2 counterexample: with anchor value 0 at time 0, `capBasis = 86400`
(so the burn rate is 1 cal/s) and a food delta of 100 applied at
`now = 172800000 ms` (48 h), the uncapped accrued balance `172800` exceeds
the cap. The server update persists `min(172800 - 100, 86400) = 86400`,
while the spec re-anchoring yields `min(172800, 86400) - 100 = 86300`;
likewise the client post-state displays `86400` at `now` where the spec
post-state displays `86300`. Neither implementation matches the spec's
re-anchoring when the cap binds. -/
theorem applyFoodDelta_not_equivalent :
    (updateEnergyReserve (some 0) (some 0) none 100 86400 172800000).1 ≠
      (specApplyFoodDelta 0 0 86400 172800000 100).1 ∧
    shownBalance (clientApplyFoodDelta 0 0 100).1 (clientApplyFoodDelta 0 0 100).2
        86400 172800000 ≠
      shownBalance (specApplyFoodDelta 0 0 86400 172800000 100).1
        (specApplyFoodDelta 0 0 86400 172800000 100).2 86400 172800000 := by
  constructor <;>
    norm_num [updateEnergyReserve, specApplyFoodDelta, clientApplyFoodDelta,
      shownBalance, jsOr]

/-- C2 amended: provided the cap is not binding at the update instant —
the uncapped accrued balance, and (for the server) the accrued balance
after subtracting the delta, are at most `capBasis` — both implementations
are equivalent to the spec's re-anchoring `value' = query(now) - delta`,
`timestamp' = now`: the server's persisted post-state equals the spec's
post-state, the client's post-state (delta subtracted, anchor timestamp
kept) displays the same balance as the spec's post-state at every later
query time, and the balance immediately after the call is
`query(now⁻) - delta`. -/
theorem applyFoodDelta_equivalent_when_uncapped (v ts cap now delta u : ℚ)
    (hts : ts ≤ now) (hu : now ≤ u)
    (h1 : v + ((now - ts) / 1000) * (cap / 86400) ≤ cap)
    (h2 : v + ((now - ts) / 1000) * (cap / 86400) - delta ≤ cap) :
    updateEnergyReserve (some v) (some ts) none delta cap now =
      specApplyFoodDelta v ts cap now delta ∧
    shownBalance (clientApplyFoodDelta v ts delta).1 (clientApplyFoodDelta v ts delta).2
        cap u =
      shownBalance (specApplyFoodDelta v ts cap now delta).1
        (specApplyFoodDelta v ts cap now delta).2 cap u ∧
    (specApplyFoodDelta v ts cap now delta).1 = shownBalance v ts cap now - delta := by
  have hnow : max 0 ((now - ts) / 1000) = (now - ts) / 1000 :=
    max_eq_right (div_nonneg (by linarith) (by norm_num))
  have hq : shownBalance v ts cap now = v + ((now - ts) / 1000) * (cap / 86400) := by
    unfold shownBalance
    rw [hnow]
    exact min_eq_left h1
  refine ⟨?_, ?_, rfl⟩
  · unfold updateEnergyReserve specApplyFoodDelta jsOr
    simp only [Option.getD_some]
    rw [hq, hnow]
    have : min (v + (now - ts) / 1000 * (cap / 86400) - delta) cap =
        v + (now - ts) / 1000 * (cap / 86400) - delta := min_eq_left h2
    rw [this]
  · have hmu1 : max 0 ((u - ts) / 1000) = (u - ts) / 1000 :=
      max_eq_right (div_nonneg (by linarith) (by norm_num))
    have hmu2 : max 0 ((u - now) / 1000) = (u - now) / 1000 :=
      max_eq_right (div_nonneg (by linarith) (by norm_num))
    dsimp only [clientApplyFoodDelta, specApplyFoodDelta, shownBalance]
    rw [hnow, min_eq_left h1, hmu1, hmu2]
    congr 1
    ring

/-- Witness for C2 amended: anchor 0 at time 0, cap 86400, delta 100
applied one hour in, queried one hour later; the cap is far from binding. -/
theorem applyFoodDelta_equivalent_when_uncapped_witness :
    (0 : ℚ) ≤ 3600000 ∧ (3600000 : ℚ) ≤ 7200000 ∧
    (0 : ℚ) + ((3600000 - 0) / 1000) * (86400 / 86400) ≤ 86400 ∧
    updateEnergyReserve (some 0) (some 0) none 100 86400 3600000 =
      specApplyFoodDelta 0 0 86400 3600000 100 := by
  refine ⟨by norm_num, by norm_num, by norm_num, ?_⟩
  exact (applyFoodDelta_equivalent_when_uncapped 0 0 86400 3600000 100 7200000
    (by norm_num) (by norm_num) (by norm_num) (by norm_num)).1

/-- C3: the buffer calculation sets a buffer of `round(goalOrTdee -
consumed)` for the next day exactly when `consumed < goalOrTdee` and
`consumed < tdee`; otherwise it sets none, reports `exceeded_tdee` exactly
when `consumed ≥ tdee` (else `met_or_exceeded_goal`, encoded as
`some false`), and clears an existing buffer exactly when its date key is
`≤` the next-day key. The two scenario rows of the claim are included. -/
theorem calculateBufferRoute_spec :
    (∀ (c g t : ℚ) (d : ℤ) (e : Option ℤ),
      ((calculateBufferRoute c g t d e).bufferSet = true ↔ c < g ∧ c < t) ∧
      (c < g → c < t → calculateBufferRoute c g t d e =
        { bufferSet := true, bufferAmount := some (jsRound (g - c)),
          forDate := some d, reasonExceededTdee := none,
          bufferCleared := false, bufferForDateAfter := some d }) ∧
      (¬(c < g ∧ c < t) →
        (calculateBufferRoute c g t d e).bufferSet = false ∧
        (calculateBufferRoute c g t d e).bufferAmount = none ∧
        ((calculateBufferRoute c g t d e).reasonExceededTdee = some true ↔ t ≤ c) ∧
        ((calculateBufferRoute c g t d e).reasonExceededTdee = some false ↔ c < t) ∧
        ((calculateBufferRoute c g t d e).bufferCleared = true ↔
          ∃ x, e = some x ∧ x ≤ d) ∧
        (calculateBufferRoute c g t d e).bufferForDateAfter =
          (if (calculateBufferRoute c g t d e).bufferCleared then none else e))) ∧
    (∀ (d : ℤ) (e : Option ℤ),
      calculateBufferRoute 1500 1800 2100 d e =
        { bufferSet := true, bufferAmount := some 300, forDate := some d,
          reasonExceededTdee := none, bufferCleared := false,
          bufferForDateAfter := some d }) ∧
    (∀ (d : ℤ) (e : Option ℤ),
      (calculateBufferRoute 2200 1800 2100 d e).bufferSet = false ∧
      (calculateBufferRoute 2200 1800 2100 d e).reasonExceededTdee = some true) := by
  refine ⟨fun c g t d e => ⟨?_, ?_, ?_⟩, ?_, ?_⟩
  · constructor
    · intro hset
      by_contra hc
      rcases e with _ | x <;> simp [calculateBufferRoute, hc] at hset <;>
        revert hset <;> split <;> simp
    · intro hc
      simp [calculateBufferRoute, hc]
  · intro h1 h2
    simp [calculateBufferRoute, h1, h2]
  · intro hc
    rcases e with _ | x
    · refine ⟨?_, ?_, ?_, ?_, ?_, ?_⟩ <;>
        simp [calculateBufferRoute, hc, decide_eq_true_iff, not_lt] <;>
        simp [not_lt] at hc ⊢ <;> try exact hc
    · by_cases hx : x ≤ d
      · refine ⟨?_, ?_, ?_, ?_, ?_, ?_⟩ <;>
          simp [calculateBufferRoute, hc, hx, decide_eq_true_iff, not_lt] <;>
          simp [not_lt] at hc ⊢ <;> try exact hc
      · refine ⟨?_, ?_, ?_, ?_, ?_, ?_⟩ <;>
          simp [calculateBufferRoute, hc, hx, decide_eq_true_iff, not_lt] <;>
          simp [not_lt] at hc ⊢ <;> try exact hc
  · intro d e
    norm_num [calculateBufferRoute, jsRound]
  · intro d e
    have hng : ¬((2200 : ℚ) < 1800 ∧ (2200 : ℚ) < 2100) := by norm_num
    have ht : (2100 : ℚ) ≤ 2200 := by norm_num
    rcases e with _ | x
    · constructor <;> simp [calculateBufferRoute, hng, decide_eq_true ht]
    · by_cases hx : x ≤ d <;>
        constructor <;> simp [calculateBufferRoute, hng, decide_eq_true ht, hx]

/-- Witness for C3 at the two scenario inputs of the claim, with an
existing buffer scheduled for day key 6 and next-day key 7. -/
theorem calculateBufferRoute_spec_witness :
    calculateBufferRoute 1500 1800 2100 7 (some 6) =
      { bufferSet := true, bufferAmount := some 300, forDate := some 7,
        reasonExceededTdee := none, bufferCleared := false,
        bufferForDateAfter := some 7 } ∧
    (calculateBufferRoute 2200 1800 2100 7 (some 6)).bufferSet = false ∧
    (calculateBufferRoute 2200 1800 2100 7 (some 6)).reasonExceededTdee = some true ∧
    (calculateBufferRoute 2200 1800 2100 7 (some 6)).bufferCleared = true := by
  refine ⟨calculateBufferRoute_spec.2.1 7 (some 6),
    (calculateBufferRoute_spec.2.2 7 (some 6)).1,
    (calculateBufferRoute_spec.2.2 7 (some 6)).2, ?_⟩
  have h := ((calculateBufferRoute_spec.1 2200 1800 2100 7 (some 6)).2.2
    (by norm_num)).2.2.2.2.1
  exact h.mpr ⟨6, rfl, by norm_num⟩

/-- C6 counterexample: the accepted goal derivation at
`(targetWeight 79, targetDays 8, currentWeight 80, bmr 1600)` produces
`dailyDeficit = round(7700/8) = 963` and `dailyGoalCalories =
max(1600 - 963, 1200) = 1200`, not the `max(1600 - 963, 1500) = 1500` the
gender floor of the claim would require for a male (default) user. -/
theorem patchUserGoals_gender_floor_fails :
    patchUserGoals 79 8 80 1600 =
      .ok { goalWeight := 79, goalDays := 8, dailyGoalCalories := 1200,
            dailyDeficit := 963 } ∧
    (1200 : ℚ) ≠ max (1600 - 963) 1500 := by
  constructor
  · norm_num [patchUserGoals, jsRound]
  · norm_num

/-- C6 amended: for every accepted goal derivation (`targetWeight <
currentWeight`, `targetDays > 0`, all fields non-falsy), `dailyDeficit =
round((currentWeight - targetWeight) * 7700 / targetDays)` capped at 1000
and `dailyGoalCalories = max(BMR - dailyDeficit, 1200)` — the floor is
1200 for every user; the gender-dependent 1200/1500 floor exists only in
the client onboarding path, not in the server's accepted derivation. -/
theorem patchUserGoals_accepted (tw td cw bmr : ℚ)
    (h1 : tw ≠ 0) (h2 : td ≠ 0) (h3 : cw ≠ 0) (h4 : bmr ≠ 0)
    (h5 : tw < cw) (h6 : 0 < td) :
    patchUserGoals tw td cw bmr =
      .ok { goalWeight := tw, goalDays := td,
            dailyGoalCalories :=
              max (bmr - ((min (jsRound ((cw - tw) * 7700 / td)) 1000 : ℤ) : ℚ)) 1200,
            dailyDeficit := ((min (jsRound ((cw - tw) * 7700 / td)) 1000 : ℤ) : ℚ) } := by
  unfold patchUserGoals
  rw [if_neg, if_neg, if_neg]
  · linarith
  · linarith
  · push_neg
    exact ⟨h1, h2, h3, h4⟩

/-- Witness for C6 amended at `(70, 100, 80, 1600)`: deficit
`round(77000/100) = 770`, goal `max(830, 1200) = 1200`. -/
theorem patchUserGoals_accepted_witness :
    patchUserGoals 70 100 80 1600 =
      .ok { goalWeight := 70, goalDays := 100, dailyGoalCalories := 1200,
            dailyDeficit := 770 } := by
  rw [patchUserGoals_accepted 70 100 80 1600 (by norm_num) (by norm_num) (by norm_num)
    (by norm_num) (by norm_num) (by norm_num)]
  norm_num [jsRound]

/-- A bounded stage overlap, restated as a telescoping difference of the
clamp `x ↦ min hoursEnd (max hoursStart x)` at the two stage boundaries. -/
theorem overlap_piece (hs he a b : ℚ) (hab : a ≤ b) (hle : hs ≤ he) :
    max 0 (min he b - max hs a) = min he (max hs b) - min he (max hs a) := by
  simp only [max_def, min_def]
  split_ifs <;> linarith

/-- The unbounded top-stage overlap, restated as the telescoping tail. -/
theorem overlap_top (hs he a : ℚ) (hle : hs ≤ he) :
    max 0 (he - max hs a) = he - min he (max hs a) := by
  simp only [max_def, min_def]
  split_ifs <;> linarith

/-- The five stage overlaps of an hours window `[hs, he]` with the fixed
boundary set `{0, 4, 8, 12, 16, ∞}` partition the window exactly when
`0 ≤ hs ≤ he`. -/
theorem overlap_sum (hs he : ℚ) (h0 : 0 ≤ hs) (hle : hs ≤ he) :
    max 0 (min he 4 - max hs 0) + max 0 (min he 8 - max hs 4) +
    max 0 (min he 12 - max hs 8) + max 0 (min he 16 - max hs 12) +
    max 0 (he - max hs 16) = he - hs := by
  rw [overlap_piece hs he 0 4 (by norm_num) hle,
    overlap_piece hs he 4 8 (by norm_num) hle,
    overlap_piece hs he 8 12 (by norm_num) hle,
    overlap_piece hs he 12 16 (by norm_num) hle,
    overlap_top hs he 16 hle]
  have hx : min he (max hs 0) = hs := by
    rw [max_eq_left h0, min_eq_right hle]
  rw [hx]
  ring

/-- Componentwise addition distributes over the bucket total. -/
theorem FastingBuckets.total_add (a b : FastingBuckets) :
    (a.add b).total = a.total + b.total := by
  simp only [FastingBuckets.add, FastingBuckets.total]
  ring

/-- Componentwise addition preserves bucket nonnegativity. -/
theorem FastingBuckets.nonneg_add {a b : FastingBuckets}
    (ha : a.Nonneg) (hb : b.Nonneg) : (a.add b).Nonneg := by
  obtain ⟨a1, a2, a3, a4, a5⟩ := ha
  obtain ⟨b1, b2, b3, b4, b5⟩ := hb
  exact ⟨by simpa [FastingBuckets.add] using add_nonneg a1 b1,
    by simpa [FastingBuckets.add] using add_nonneg a2 b2,
    by simpa [FastingBuckets.add] using add_nonneg a3 b3,
    by simpa [FastingBuckets.add] using add_nonneg a4 b4,
    by simpa [FastingBuckets.add] using add_nonneg a5 b5⟩

/-- The zero bucket record is nonnegative. -/
theorem FastingBuckets.zero_nonneg : FastingBuckets.zero.Nonneg := by
  refine ⟨le_rfl, le_rfl, le_rfl, le_rfl, le_rfl⟩

/-- The zero bucket record has total 0. -/
theorem FastingBuckets.zero_total : FastingBuckets.zero.total = 0 := by
  simp [FastingBuckets.zero, FastingBuckets.total]

/-- Each window allocation produces nonnegative buckets. -/
theorem allocate_nonneg (lastMeal : Option ℚ) (ws we : ℚ) :
    (allocateFastingTimeWithOffset lastMeal ws we).Nonneg := by
  unfold allocateFastingTimeWithOffset
  split
  · exact FastingBuckets.zero_nonneg
  · refine ⟨?_, ?_, ?_, ?_, ?_⟩ <;>
      · simp only [stageOverlap, stageOverlapTop]
        positivity

/-- A window allocation with a nonnegative starting offset (the last meal,
when present, is not after the window start) distributes exactly the
window's seconds across the buckets. -/
theorem allocate_total (lastMeal : Option ℚ) (ws we : ℚ) (hws : ws ≤ we)
    (hlm : ∀ x ∈ lastMeal, x ≤ ws) :
    (allocateFastingTimeWithOffset lastMeal ws we).total = (we - ws) / 1000 := by
  by_cases hw : we ≤ ws
  · have hz : we = ws := le_antisymm hw hws
    subst hz
    unfold allocateFastingTimeWithOffset
    rw [if_pos le_rfl, FastingBuckets.zero_total]
    norm_num
  · unfold allocateFastingTimeWithOffset
    rw [if_neg hw]
    rcases lastMeal with _ | lm
    · have h := overlap_sum 24 (24 + (we - ws) / 3600000) (by norm_num)
        (by nlinarith [sub_nonneg.mpr hws])
      simp only [FastingBuckets.total, stageOverlap, stageOverlapTop]
      linear_combination 3600 * h
    · have hlm2 : lm ≤ ws := hlm lm rfl
      have h := overlap_sum ((ws - lm) / 3600000) ((we - lm) / 3600000)
        (div_nonneg (by linarith) (by norm_num)) (by nlinarith [sub_nonneg.mpr hws])
      simp only [FastingBuckets.total, stageOverlap, stageOverlapTop]
      linear_combination 3600 * h

/-- The meal walk preserves bucket nonnegativity. -/
theorem fastingWalk_nonneg (dayEnd : ℚ) (meals : List ℚ) :
    ∀ (lm : Option ℚ) (cur : ℚ) (acc : FastingBuckets), acc.Nonneg →
      (fastingWalk dayEnd lm cur meals acc).Nonneg := by
  induction meals with
  | nil =>
    intro lm cur acc hacc
    exact FastingBuckets.nonneg_add hacc (allocate_nonneg lm cur dayEnd)
  | cons m rest ih =>
    intro lm cur acc hacc
    exact ih (some m) m _ (FastingBuckets.nonneg_add hacc (allocate_nonneg lm cur m))

/-- The meal walk over a sorted list of in-window meals accumulates exactly
the seconds between the clock and the day end. -/
theorem fastingWalk_total (dayEnd : ℚ) (meals : List ℚ) :
    ∀ (lm : Option ℚ) (cur : ℚ) (acc : FastingBuckets),
      (∀ x ∈ lm, x ≤ cur) → cur ≤ dayEnd →
      meals.Sorted (· ≤ ·) → (∀ m ∈ meals, cur ≤ m ∧ m ≤ dayEnd) →
      (fastingWalk dayEnd lm cur meals acc).total =
        acc.total + (dayEnd - cur) / 1000 := by
  induction meals with
  | nil =>
    intro lm cur acc hlm hcur _ _
    simp only [fastingWalk]
    rw [FastingBuckets.total_add, allocate_total lm cur dayEnd hcur hlm]
  | cons m rest ih =>
    intro lm cur acc hlm hcur hsort hm
    obtain ⟨hrest, hsort2⟩ := List.sorted_cons.mp hsort
    have hcm : cur ≤ m := (hm m (List.mem_cons_self m rest)).1
    have hmd : m ≤ dayEnd := (hm m (List.mem_cons_self m rest)).2
    simp only [fastingWalk]
    rw [ih (some m) m _ (fun x hx => by rw [Option.mem_some_iff] at hx; exact hx ▸ le_rfl)
      hmd hsort2 (fun x hx => ⟨hrest x hx, (hm x (List.mem_cons_of_mem m hx)).2⟩)]
    rw [FastingBuckets.total_add, allocate_total lm cur m hcm hlm]
    ring

/-- C4: for every day window `dayStart ≤ dayEnd`, every last-meal anchor at
or before `dayStart` (or absent), and every list of meal timestamps inside
`[dayStart, dayEnd]`, the per-day fasting allocation yields five stage
durations that are each nonnegative and sum to exactly the window's length
in seconds (timestamps are milliseconds, hence the division by 1000); the
zero-meal day with a last-meal-before instant is the special case
`meals = []`. -/
theorem calculateFastingDurations_nonneg_and_total (lmb : Option ℚ)
    (meals : List ℚ) (dayStart dayEnd : ℚ) (hd : dayStart ≤ dayEnd)
    (hlmb : ∀ x ∈ lmb, x ≤ dayStart)
    (hm : ∀ m ∈ meals, dayStart ≤ m ∧ m ≤ dayEnd) :
    (calculateFastingDurationsForDay lmb meals dayStart dayEnd).Nonneg ∧
    (calculateFastingDurationsForDay lmb meals dayStart dayEnd).total =
      (dayEnd - dayStart) / 1000 := by
  unfold calculateFastingDurationsForDay
  have hperm := List.perm_insertionSort (· ≤ ·) meals
  have hsort := List.sorted_insertionSort (· ≤ ·) meals
  have hm2 : ∀ m ∈ meals.insertionSort (· ≤ ·), dayStart ≤ m ∧ m ≤ dayEnd :=
    fun m hmem => hm m (hperm.mem_iff.mp hmem)
  constructor
  · exact fastingWalk_nonneg dayEnd _ lmb dayStart _ FastingBuckets.zero_nonneg
  · rw [fastingWalk_total dayEnd _ lmb dayStart _ hlmb hd hsort hm2,
      FastingBuckets.zero_total]
    ring

/-- Witness for C4: a day from 0 to one hour with a meal at the half hour
and a last-meal anchor at 0 allocates 3600 seconds in total. -/
theorem calculateFastingDurations_nonneg_and_total_witness :
    (calculateFastingDurationsForDay (some 0) [1800000] 0 3600000).Nonneg ∧
    (calculateFastingDurationsForDay (some 0) [1800000] 0 3600000).total = 3600 := by
  have h := calculateFastingDurations_nonneg_and_total (some 0) [1800000] 0 3600000
    (by norm_num) (by intro x hx; rw [Option.mem_some_iff] at hx; simp [hx])
    (by intro m hm; rw [List.mem_singleton] at hm; subst hm; norm_num)
  refine ⟨h.1, ?_⟩
  rw [h.2]
  norm_num

/-- C7: for the calendar day whose day start equals the midnight of the
user's `fastingTrackingStartDate`, the persisted fasting summary has
`autophagySeconds = 0`, regardless of the food history and of whatever the
allocation routine computed for that day. -/
theorem recalcDaySummary_trackingStart_autophagy_zero
    (originalTrackingTimestamp : ℚ) (sortedFoodItems : List ℚ)
    (dayStart dayEnd : ℚ) (h : dayStart = midnightOf originalTrackingTimestamp) :
    (recalcDaySummary originalTrackingTimestamp sortedFoodItems
      dayStart dayEnd).autophagySeconds = 0 := by
  unfold recalcDaySummary
  simp only [h, if_pos]

/-- Witness for C7: tracking started mid-day on day 1; the day-1 window
with two meals gets a zero autophagy row. -/
theorem recalcDaySummary_trackingStart_autophagy_zero_witness :
    (86400000 : ℚ) = midnightOf 100000000 ∧
    (recalcDaySummary 100000000 [90000000, 100000000] 86400000
      172799000).autophagySeconds = 0 := by
  have h : (86400000 : ℚ) = midnightOf 100000000 := by
    norm_num [midnightOf]
  exact ⟨h, recalcDaySummary_trackingStart_autophagy_zero 100000000
    [90000000, 100000000] 86400000 172799000 h⟩

/-- Witness for C10: a meal stamped on day 3 is rejected for a user whose
tracking started during day 5. -/
theorem postFood_rejects_before_tracking_start_witness :
    dayIndexOf 259200000 < dayIndexOf 433000000 ∧
    postFood (some 433000000) 259200000 =
      { inserted := none, validationError := true } := by
  have h : dayIndexOf (259200000 : ℚ) < dayIndexOf (433000000 : ℚ) := by
    norm_num [dayIndexOf]
  exact ⟨h, postFood_rejects_before_tracking_start 433000000 259200000 h⟩

end Fluxcal
